import Mathlib

/-!
# MedReserve frontend — verification of the booking orchestration core

A shallow embedding of the client-side booking logic of the MedReserve
frontend (React/TypeScript).  Pure functions of the source become Lean
functions; React component state becomes explicit state records; each
`async` handler is split at its `await` points into a synchronous start
phase and a settle phase that receives the outcome of the awaited call;
the browser event loop becomes an explicit step function folded over a
list of events.  JavaScript thrown values are modelled by `JsError`
(an `Error` instance carrying a `message` string, or a non-`Error`
value), ISO-8601 timestamps by their epoch-millisecond value (the value
`new Date(iso).getTime()` yields), and the omission of
`undefined`-valued keys by `JSON.stringify` by dropping `none` entries from an association
list.
-/

namespace MedReserve

/-- `src/types/index.ts` — `Doctor`: integer id, required name, optional
specialization. -/
structure Doctor where
  id : Nat
  name : String
  specialization : Option String := none
  deriving Repr, DecidableEq

/-- `src/types/index.ts` — `AppointmentSlot`.  `start_time` is the
epoch-millisecond value of the ISO string (what
`new Date(start_time).getTime()` returns in the source). -/
structure AppointmentSlot where
  id : Nat
  doctor_id : Nat
  start_time : Nat
  duration_minutes : Nat
  deriving Repr, DecidableEq

/-- `src/types/index.ts` — `Booking.status`, the closed set
`PENDING | CONFIRMED | FAILED`. -/
inductive BookingStatus where
  | PENDING
  | CONFIRMED
  | FAILED
  deriving Repr, DecidableEq

/-- `src/types/index.ts` — `Booking` as returned by `/slots/:id/book`. -/
structure Booking where
  id : Nat
  slot_id : Nat
  patient_name : String
  patient_email : Option String := none
  status : BookingStatus
  deriving Repr, DecidableEq

/-- A JavaScript thrown value as the catch clauses of the source observe
it: either an `Error` instance carrying its `message` string, or any
non-`Error` value. -/
inductive JsError where
  | error (message : String)
  | nonError
  deriving Repr, DecidableEq

/-- The pattern `e instanceof Error ? e.message : fallback` used by every
catch clause of the source. -/
def jsErrMsgOr (fallback : String) : JsError → String
  | .error m => m
  | .nonError => fallback

/-- An HTTP response as `fetch` resolves it: numeric status, status text,
and the outcome of `response.json()` (which can itself reject). -/
structure HttpResponse (β : Type) where
  status : Nat
  statusText : String
  body : Except String β

/-- The outcome of the `fetch` transport: a rejection (DNS failure,
connection refused, timeout, …) or a resolved response. -/
inductive TransportResult (β : Type) where
  | fail (err : JsError)
  | resp (r : HttpResponse β)

/-- `response.ok` — true exactly when the status is in the 200–299
success range. -/
def responseOk (status : Nat) : Bool :=
  200 ≤ status && status ≤ 299

/-- `src/api/medreserveApi.ts` — `fetchApi`: throws
`Error("API Error: <status> <statusText>")` when `!response.ok`, returns
the parsed JSON body otherwise; a transport rejection or a
`response.json()` rejection is logged and rethrown unchanged by the
catch clause. -/
def fetchApi {β : Type} : TransportResult β → Except JsError β
  | .fail e => .error e
  | .resp r =>
    if responseOk r.status then
      match r.body with
      | .ok v => .ok v
      | .error m => .error (.error m)
    else
      .error (.error ("API Error: " ++ toString r.status ++ " " ++ r.statusText))

/-- JavaScript `String.prototype.trim`: remove leading and trailing
whitespace. -/
def jsTrim (s : String) : String :=
  String.mk (((s.data.dropWhile Char.isWhitespace).reverse.dropWhile
    Char.isWhitespace).reverse)

/-- `JSON.stringify` on an object literal: keys whose value is
`undefined` (here `none`) are omitted from the serialized body; the
remaining keys keep their order. -/
def jsonFields (l : List (String × Option String)) : List (String × String) :=
  l.filterMap (fun p => p.2.map (fun v => (p.1, v)))

/-- `src/api/medreserveApi.ts` — the request body built by
`bookAppointment`: `{ patient_name: patientData.name, patient_email:
patientData.email }` serialized with `JSON.stringify`. -/
def bookAppointmentBody (name : String) (email : Option String) : List (String × String) :=
  jsonFields [("patient_name", some name), ("patient_email", email)]

/-! ## Doctor Directory Cache (`src/context/AppContext.tsx`) -/

/-- The `AppContextProvider` state: `doctors`, `loadingDoctors`,
`errorDoctors`. -/
structure AppState where
  doctors : List Doctor
  loadingDoctors : Bool
  errorDoctors : Option String
  deriving Repr, DecidableEq

/-- `src/context/AppContext.tsx` — `fetchDoctors`, run to completion:
sets the loading flag and clears the error, awaits `getDoctors()`
(outcome passed as `res`), stores the list on success or the classified
error message on failure, and finally clears the loading flag. -/
def fetchDoctors (s : AppState) (res : Except JsError (List Doctor)) : AppState :=
  let s1 : AppState := { s with loadingDoctors := true, errorDoctors := none }
  let s2 : AppState :=
    match res with
    | .ok data => { s1 with doctors := data }
    | .error e => { s1 with errorDoctors := some (jsErrMsgOr "Failed to load doctors" e) }
  { s2 with loadingDoctors := false }

/-! ## Slot Query (`src/pages/UserHome.tsx`) -/

/-- The `UserHome` state relevant to slot querying, plus the multiset of
outstanding `getDoctorSlots` requests (each tagged with the doctor id it
was issued for). -/
structure HomeState where
  selectedDoctorId : Option Nat
  slots : List AppointmentSlot
  loadingSlots : Bool
  inflight : List Nat
  deriving Repr, DecidableEq

/-- Initial `UserHome` state: no selection, empty slot list, not
loading. -/
def homeInit : HomeState :=
  { selectedDoctorId := none, slots := [], loadingSlots := false, inflight := [] }

/-- Events of the single-threaded event loop around
`handleSelectDoctor`: the user selects a doctor, or the awaited
`getDoctorSlots(doctorId)` call for a previously issued request
settles. -/
inductive HomeEvent where
  | select (doctorId : Nat)
  | response (doctorId : Nat) (res : Except JsError (List AppointmentSlot))

/-- `src/pages/UserHome.tsx` — `handleSelectDoctor`, split at its
`await`.  On `select`: store the selection, set the loading flag, clear
the previous slots, and issue the request.  On `response` (the
continuation after the `await`, run once per outstanding request): store
the fetched slots on success or `[]` on failure, and finally clear the
loading flag — the source applies the response unconditionally, with no
comparison against the currently selected doctor id. -/
def homeStep (s : HomeState) : HomeEvent → HomeState
  | .select d =>
    { s with selectedDoctorId := some d, loadingSlots := true, slots := [],
             inflight := s.inflight ++ [d] }
  | .response d res =>
    if d ∈ s.inflight then
      let slots := match res with
        | .ok availableSlots => availableSlots
        | .error _ => []
      { s with slots := slots, loadingSlots := false, inflight := s.inflight.erase d }
    else s

/-- Run the `UserHome` event loop from a state over a list of events. -/
def homeRun (s : HomeState) (es : List HomeEvent) : HomeState :=
  es.foldl homeStep s

/-! ## Booking Submission (`src/pages/BookingPage.tsx`) -/

/-- `ToastType` from `src/components/Toast.tsx`:
`success | error | info`. -/
inductive ToastType where
  | success
  | error
  | info
  deriving Repr, DecidableEq

/-- The `BookingPage` component state: form fields, submission flag,
inline error, and the stored booking record. -/
structure BookingState where
  name : String
  email : String
  isSubmitting : Bool
  error : Option String
  booking : Option Booking
  showSuccessModal : Bool
  deriving Repr, DecidableEq

/-- Initial `BookingPage` state: empty form, not submitting, no error,
no booking. -/
def bookingInit : BookingState :=
  { name := "", email := "", isSubmitting := false, error := none,
    booking := none, showSuccessModal := false }

/-- A booking network request as `handleSubmit` issues it: the slot id
passed to `bookAppointment` and the serialized JSON body (with
`undefined`-valued keys omitted, see `jsonFields`). -/
structure BookingRequest where
  slotId : Nat
  body : List (String × String)
  deriving Repr, DecidableEq

/-- `src/pages/BookingPage.tsx` — the synchronous prefix of
`handleSubmit`, up to the `await bookAppointment(...)`: clear the error;
if the `slotId` route param is absent, set the slot validation error
and return without a network call; if the trimmed name is empty, set
`"Name is required"` and return without a network call; otherwise set
`isSubmitting` and issue the request built from the trimmed name and
the trimmed email (blank email becomes `undefined`, hence an omitted
key). -/
def handleSubmitStart (slotId : Option Nat) (s : BookingState) :
    BookingState × Option BookingRequest :=
  let s0 : BookingState := { s with error := none }
  match slotId with
  | none =>
    ({ s0 with error := some "Invalid slot ID. Please select a slot from the home page." }, none)
  | some sid =>
    if jsTrim s.name = "" then
      ({ s0 with error := some "Name is required" }, none)
    else
      ({ s0 with isSubmitting := true },
       some { slotId := sid,
              body := bookAppointmentBody (jsTrim s.name)
                        (if jsTrim s.email = "" then none else some (jsTrim s.email)) })

/-- `src/pages/BookingPage.tsx` — the continuation of `handleSubmit`
after the `await` settles: on success store the booking, clear the
error, open the success modal and toast `success`; on failure classify
the thrown value (`err.message` when it is an `Error` instance, the generic
fallback otherwise), store it as the inline error, clear the booking and
toast it as `error`; either way the `finally` clause clears
`isSubmitting`.  The second component is the list of toasts enqueued by
`showToast`. -/
def handleSubmitSettle (s : BookingState) (res : Except JsError Booking) :
    BookingState × List (String × ToastType) :=
  match res with
  | .ok result =>
    ({ s with booking := some result, error := none, showSuccessModal := true,
              isSubmitting := false },
     [("Appointment booked successfully!", .success)])
  | .error err =>
    let errorMessage := jsErrMsgOr "Failed to book appointment" err
    ({ s with error := some errorMessage, booking := none, isSubmitting := false },
     [(errorMessage, .error)])

/-- The rendered form can deliver a submit event only while it is
mounted and enabled: the form is rendered only when no booking is stored
(`{!booking && <form ...>}`) and its inputs and submit button carry
`disabled={isSubmitting}`, so while a submission is in flight neither a
click on the submit button nor implicit submission (Enter) fires
`handleSubmit`. -/
def submitEnabled (s : BookingState) : Bool :=
  s.booking.isNone && !s.isSubmitting

/-- A user-initiated form submission on the booking page: `handleSubmit`
runs only when the rendered form can deliver the event
(see `submitEnabled`); otherwise the DOM delivers nothing and the state
is untouched. -/
def userSubmit (slotId : Option Nat) (s : BookingState) :
    BookingState × Option BookingRequest :=
  if submitEnabled s then handleSubmitStart slotId s else (s, none)

/-! ## Notification Queue (`src/components/Toast.tsx` + `ToastContext`)

The `Toast` component (in `src/components`) sets one `setTimeout(onClose,
duration)` per mounted toast, with `duration = 3000` by default, and its
effect cleanup runs `clearTimeout` on that specific handle when the toast
unmounts.  The owning `ToastContext` module is imported by the pages but
its file is not part of this snapshot; its list management is modelled
from the spec below. -/

/-- One transient notification: id, text, severity. -/
structure ToastItem where
  id : Nat
  message : String
  ttype : ToastType
  deriving Repr, DecidableEq

/-- Modelled from the spec: the `ToastContext` state (its source file is
imported by the pages but missing from this snapshot) — the FIFO list of
currently mounted toasts plus, from the effect of the `Toast` component, one
active `setTimeout` handle per mounted toast, recorded as
`(toast id, fire deadline)`; `now` is the event-loop clock and `nextId`
the fresh-id counter. -/
structure ToastSys where
  toasts : List ToastItem
  timers : List (Nat × Nat)
  now : Nat
  nextId : Nat
  deriving Repr, DecidableEq

/-- The empty notification system at time 0. -/
def toastInit : ToastSys :=
  { toasts := [], timers := [], now := 0, nextId := 0 }

/-- Notification events: `showToast` enqueues a message (passing `none`
as duration means the default of 3000 in the `Toast` component), the user
manually dismisses a toast, the `setTimeout` callback for a toast
attempts to fire, or the clock advances. -/
inductive ToastEvent where
  | showToast (message : String) (ttype : ToastType) (duration : Option Nat)
  | dismiss (id : Nat)
  | fire (id : Nat)
  | tick (dt : Nat)

/-- One step of the notification system.
`show`: the new toast mounts and its `Toast` effect arms a timer for
`now + duration` (3000 when the caller gave none).
`dismiss`: the user clicks close; `onClose` removes the toast, the
cleanup of the unmounting `Toast` clears its specific timer.
`fire`: a `setTimeout` callback runs — only a still-armed handle whose
deadline has elapsed can run; it calls `onClose`, removing the toast,
and the unmount cleanup discards the handle; a cleared handle never
fires, so an unknown id is a no-op.
`tick`: time passes. -/
def toastStep (s : ToastSys) : ToastEvent → ToastSys
  | .showToast m ty dur =>
    let d := dur.getD 3000
    { s with toasts := s.toasts ++ [⟨s.nextId, m, ty⟩],
             timers := s.timers ++ [(s.nextId, s.now + d)],
             nextId := s.nextId + 1 }
  | .dismiss i =>
    { s with toasts := s.toasts.filter (fun t => t.id ≠ i),
             timers := s.timers.filter (fun p => p.1 ≠ i) }
  | .fire i =>
    match s.timers.find? (fun p => p.1 = i) with
    | some (_, dl) =>
      if dl ≤ s.now then
        { s with toasts := s.toasts.filter (fun t => t.id ≠ i),
                 timers := s.timers.filter (fun p => p.1 ≠ i) }
      else s
    | none => s
  | .tick dt => { s with now := s.now + dt }

/-- Run the notification system from the empty state over a list of
events. -/
def toastRun (es : List ToastEvent) : ToastSys :=
  es.foldl toastStep toastInit

/-- Every armed timer belongs to a still-mounted toast: no dangling
callback can fire against an already-removed message. -/
def noDanglingTimer (s : ToastSys) : Prop :=
  ∀ p ∈ s.timers, ∃ t ∈ s.toasts, t.id = p.1

/-! ## Calendar Export (`src/components/BookingTicket.tsx`) -/

/-- Civil-from-days: convert a day count since 1970-01-01 to a Gregorian
`(year, month, day)` triple, as `Date.prototype.toISOString` renders it
(valid for dates at or after the epoch). -/
def daysToCivil (z : Nat) : Nat × Nat × Nat :=
  let zz := z + 719468
  let era := zz / 146097
  let doe := zz % 146097
  let yoe := (doe - doe / 1460 + doe / 36524 - doe / 146096) / 365
  let y := yoe + era * 400
  let doy := doe - (365 * yoe + yoe / 4 - yoe / 100)
  let mp := (5 * doy + 2) / 153
  let d := doy - (153 * mp + 2) / 5 + 1
  let m := if mp < 10 then mp + 3 else mp - 9
  (if m ≤ 2 then y + 1 else y, m, d)

/-- Left-pad a number with zeros to two digits. -/
def pad2 (n : Nat) : String :=
  if n < 10 then "0" ++ toString n else toString n

/-- Left-pad a number with zeros to four digits (years in our range). -/
def pad4 (n : Nat) : String :=
  if n < 10 then "000" ++ toString n
  else if n < 100 then "00" ++ toString n
  else if n < 1000 then "0" ++ toString n
  else toString n

/-- `src/components/BookingTicket.tsx` — the `formatDate` helper of
`generateICS`: the ISO string of the date with dashes, colons and the
fractional-second part removed and a trailing Z, i.e. `YYYYMMDDTHHmmssZ` in UTC, applied here to an
epoch-millisecond value. -/
def formatDateICS (ms : Nat) : String :=
  let totalSec := ms / 1000
  let days := totalSec / 86400
  let secOfDay := totalSec % 86400
  let c := daysToCivil days
  pad4 c.1 ++ pad2 c.2.1 ++ pad2 c.2.2 ++ "T" ++
    pad2 (secOfDay / 3600) ++ pad2 (secOfDay % 3600 / 60) ++ pad2 (secOfDay % 60) ++ "Z"

/-- The summary built by `generateICS`:
`Appointment with` followed by the doctor name or `Doctor` (JavaScript
falsy-or) — the placeholder is
used when the doctor is absent or its name is falsy (empty). -/
def icsSummaryName (doctor : Option Doctor) : String :=
  match doctor with
  | some d => if d.name = "" then "Doctor" else d.name
  | none => "Doctor"

/-- `src/components/BookingTicket.tsx` — `generateICS` as the list of
lines of the template literal it returns (the `DESCRIPTION` field
contains a literal `\n`, so it spans two lines of the payload).  `now`
is the clock value the two `new Date()` calls observe: `start` falls
back to it when no slot is given, and `DTSTAMP` always uses it. -/
def icsLines (b : Booking) (slot : Option AppointmentSlot) (doctor : Option Doctor)
    (now : Nat) : List String :=
  let start := match slot with
    | some s => s.start_time
    | none => now
  let endT := match slot with
    | some s => start + s.duration_minutes * 60000
    | none => start + 30 * 60000
  [ "BEGIN:VCALENDAR",
    "VERSION:2.0",
    "PRODID:-//MedReserve//Appointment//EN",
    "BEGIN:VEVENT",
    "UID:" ++ (toString b.id ++ "@medreserve.com"),
    "DTSTAMP:" ++ formatDateICS now,
    "DTSTART:" ++ formatDateICS start,
    "DTEND:" ++ formatDateICS endT,
    "SUMMARY:Appointment with " ++ icsSummaryName doctor,
    "DESCRIPTION:Booking ID: " ++ toString b.id,
    "Patient: " ++ b.patient_name,
    "STATUS:CONFIRMED",
    "END:VEVENT",
    "END:VCALENDAR" ]

/-- `src/components/BookingTicket.tsx` — `generateICS`: the calendar
payload string, the lines joined by newlines exactly as in the template
literal of the source. -/
def generateICS (b : Booking) (slot : Option AppointmentSlot) (doctor : Option Doctor)
    (now : Nat) : String :=
  String.intercalate "\n" (icsLines b slot doctor now)

/-! ## Theorems -/

/-- Claim C8: for every API Client call, a response whose status is
outside the 2xx success range makes the call fail with an error whose
message carries the numeric status code and the status text, with no
parsed body returned; a transport failure makes the call fail with the
transport error itself; neither failure is silently swallowed. -/
theorem fetchApi_failure_propagation {β : Type} (r : HttpResponse β) (e : JsError)
    (hbad : responseOk r.status = false) :
    fetchApi (TransportResult.resp r) =
      Except.error (JsError.error ("API Error: " ++ toString r.status ++ " " ++ r.statusText)) ∧
    (∀ v : β, fetchApi (TransportResult.resp r) ≠ Except.ok v) ∧
    fetchApi (TransportResult.fail e) = (Except.error e : Except JsError β) := by
  refine ⟨?_, ?_, rfl⟩
  · simp [fetchApi, hbad]
  · intro v
    simp [fetchApi, hbad]

/-- Witness for C8 at a concrete 404 response and a concrete transport
failure. -/
theorem fetchApi_failure_propagation_witness :
    fetchApi (TransportResult.resp (⟨404, "Not Found", Except.ok 0⟩ : HttpResponse Nat)) =
      Except.error (JsError.error "API Error: 404 Not Found") ∧
    fetchApi (TransportResult.fail (JsError.error "connection refused") : TransportResult Nat) =
      Except.error (JsError.error "connection refused") := by
  have h := fetchApi_failure_propagation (β := Nat)
    ⟨404, "Not Found", Except.ok 0⟩ (JsError.error "connection refused") (by decide)
  exact ⟨h.1, h.2.2⟩

/-- Claim C5: a failed refresh of the doctor cache leaves the previously
cached list unchanged and sets the error value; a successful refresh
replaces the cached list wholesale by the fetched list and leaves the
error value cleared. -/
theorem fetchDoctors_refresh_frame (s : AppState) (res : Except JsError (List Doctor)) :
    (∀ e, res = Except.error e →
      (fetchDoctors s res).doctors = s.doctors ∧
      (fetchDoctors s res).errorDoctors = some (jsErrMsgOr "Failed to load doctors" e)) ∧
    (∀ data, res = Except.ok data →
      (fetchDoctors s res).doctors = data ∧
      (fetchDoctors s res).errorDoctors = none) := by
  constructor
  · intro e he
    subst he
    simp [fetchDoctors]
  · intro data hd
    subst hd
    simp [fetchDoctors]

/-- Witness for C5: a failed refresh on a one-doctor cache keeps the
doctor and records the message; a successful refresh installs the new
list with no error. -/
theorem fetchDoctors_refresh_frame_witness :
    (fetchDoctors ⟨[⟨1, "A. Smith", none⟩], false, none⟩
        (Except.error (JsError.error "API Error: 500 Internal Server Error"))).doctors =
      [⟨1, "A. Smith", none⟩] ∧
    (fetchDoctors ⟨[⟨1, "A. Smith", none⟩], false, none⟩
        (Except.ok [⟨2, "B. Jones", none⟩])).doctors = [⟨2, "B. Jones", none⟩] ∧
    (fetchDoctors ⟨[⟨1, "A. Smith", none⟩], false, none⟩
        (Except.ok [⟨2, "B. Jones", none⟩])).errorDoctors = none := by
  have h1 := (fetchDoctors_refresh_frame ⟨[⟨1, "A. Smith", none⟩], false, none⟩
    (Except.error (JsError.error "API Error: 500 Internal Server Error"))).1
    (JsError.error "API Error: 500 Internal Server Error") rfl
  have h2 := (fetchDoctors_refresh_frame ⟨[⟨1, "A. Smith", none⟩], false, none⟩
    (Except.ok [⟨2, "B. Jones", none⟩])).2 [⟨2, "B. Jones", none⟩] rfl
  exact ⟨h1.1, h2.1, h2.2⟩

/-- The doctor-1 slot used in the stale-response race trace. -/
def raceSlotDoc1 : AppointmentSlot :=
  { id := 10, doctor_id := 1, start_time := 1717232400000, duration_minutes := 30 }

/-- The doctor-2 slot used in the stale-response race trace. -/
def raceSlotDoc2 : AppointmentSlot :=
  { id := 20, doctor_id := 2, start_time := 1717236000000, duration_minutes := 30 }

/-- Claim C1 (violated by the code): `handleSelectDoctor` stores a slot
response without comparing its doctor id against the current selection,
so in the trace select doctor 1, select doctor 2, response for 2,
late response for 1, the final state displays the slots of doctor 1
(`raceSlotDoc1`, owned by doctor 1) while doctor 2 is selected and
loading is finished — the stale response is applied, not discarded. -/
theorem stale_slot_response_applied :
    (homeRun homeInit
      [HomeEvent.select 1, HomeEvent.select 2,
       HomeEvent.response 2 (Except.ok [raceSlotDoc2]),
       HomeEvent.response 1 (Except.ok [raceSlotDoc1])]).selectedDoctorId = some 2 ∧
    (homeRun homeInit
      [HomeEvent.select 1, HomeEvent.select 2,
       HomeEvent.response 2 (Except.ok [raceSlotDoc2]),
       HomeEvent.response 1 (Except.ok [raceSlotDoc1])]).loadingSlots = false ∧
    (homeRun homeInit
      [HomeEvent.select 1, HomeEvent.select 2,
       HomeEvent.response 2 (Except.ok [raceSlotDoc2]),
       HomeEvent.response 1 (Except.ok [raceSlotDoc1])]).slots = [raceSlotDoc1] ∧
    raceSlotDoc1.doctor_id = 1 := by
  decide

/-- Claim C2: while a submission is in flight (`isSubmitting = true`), a
user-initiated submit on the booking page is a no-op — the state is
unchanged and no network request is issued, because the rendered form
and its submit button are disabled. -/
theorem submit_reentrancy_guard (slotId : Option Nat) (s : BookingState)
    (h : s.isSubmitting = true) :
    userSubmit slotId s = (s, none) := by
  simp [userSubmit, submitEnabled, h]

/-- Witness for C2 at a concrete in-flight state. -/
theorem submit_reentrancy_guard_witness :
    userSubmit (some 10)
      { name := "Jane Doe", email := "", isSubmitting := true, error := none,
        booking := none, showSuccessModal := false } =
      ({ name := "Jane Doe", email := "", isSubmitting := true, error := none,
         booking := none, showSuccessModal := false }, none) :=
  submit_reentrancy_guard (some 10) _ rfl

/-- Claim C3: a submission attempt whose patient name trims to the empty
string issues no network request, surfaces the local validation error
"Name is required", and leaves the submission state idle with no booking
stored. -/
theorem blank_name_rejected_locally (sid : Nat) (s : BookingState)
    (hname : jsTrim s.name = "") (hidle : s.isSubmitting = false) :
    (handleSubmitStart (some sid) s).2 = none ∧
    (handleSubmitStart (some sid) s).1.error = some "Name is required" ∧
    (handleSubmitStart (some sid) s).1.isSubmitting = false ∧
    (handleSubmitStart (some sid) s).1.booking = s.booking := by
  refine ⟨?_, ?_, ?_, ?_⟩ <;> simp [handleSubmitStart, hname, hidle]

/-- Witness for C3 at a whitespace-only name. -/
theorem blank_name_rejected_locally_witness :
    (handleSubmitStart (some 10)
      { bookingInit with name := "   " }).2 = none ∧
    (handleSubmitStart (some 10)
      { bookingInit with name := "   " }).1.error = some "Name is required" := by
  have h := blank_name_rejected_locally 10 { bookingInit with name := "   " }
    (by decide) (by rfl)
  exact ⟨h.1, h.2.1⟩

/-- Claim C4 (as stated) is violated: the fallback applies only when the
thrown value is not an `Error` instance, so an `Error` whose `message`
is the empty string is displayed verbatim — the inline error and the
toast both show the empty string, a blank explanation. -/
theorem empty_error_message_displayed :
    (handleSubmitSettle bookingInit (Except.error (JsError.error ""))).1.error = some "" ∧
    (handleSubmitSettle bookingInit (Except.error (JsError.error ""))).2 =
      [("", ToastType.error)] ∧
    ("" : String).length = 0 := by
  refine ⟨rfl, rfl, rfl⟩

/-- Claim C4 (amended): on a failed submission the shown message (inline
error and toast alike) is exactly the message carried by the thrown
`Error`, and the generic fallback "Failed to book appointment" is used
exactly when the thrown value is not an `Error` instance; consequently
the shown message can be blank only when the error itself carries an
empty message. -/
theorem failure_message_classification (s : BookingState) (err : JsError) :
    (handleSubmitSettle s (Except.error err)).1.error =
      some (jsErrMsgOr "Failed to book appointment" err) ∧
    (handleSubmitSettle s (Except.error err)).2 =
      [(jsErrMsgOr "Failed to book appointment" err, ToastType.error)] ∧
    (err = JsError.nonError →
      jsErrMsgOr "Failed to book appointment" err = "Failed to book appointment") ∧
    (∀ m, err = JsError.error m → jsErrMsgOr "Failed to book appointment" err = m) ∧
    (jsErrMsgOr "Failed to book appointment" err = "" → err = JsError.error "") := by
  cases err with
  | error m =>
    refine ⟨rfl, rfl, ?_, ?_, ?_⟩
    · intro h
      cases h
    · intro m2 h
      cases h
      rfl
    · intro h
      simp only [jsErrMsgOr] at h
      rw [h]
  | nonError =>
    refine ⟨rfl, rfl, ?_, ?_, ?_⟩
    · intro h
      rfl
    · intro m2 h
      cases h
    · intro h
      exact absurd h (by decide)

/-- Witness for the amended C4 at a conflict-style `Error` and at a
non-`Error` thrown value. -/
theorem failure_message_classification_witness :
    (handleSubmitSettle bookingInit
      (Except.error (JsError.error "API Error: 409 Conflict"))).1.error =
      some "API Error: 409 Conflict" ∧
    (handleSubmitSettle bookingInit (Except.error JsError.nonError)).1.error =
      some "Failed to book appointment" := by
  have h1 := (failure_message_classification bookingInit
    (JsError.error "API Error: 409 Conflict")).1
  have h2 := (failure_message_classification bookingInit JsError.nonError).1
  exact ⟨h1, h2⟩

/-- Claim C10: every submission that reaches the network sends the
entered name with leading and trailing whitespace removed as
`patient_name`, and omits the `patient_email` key entirely when the
email field trims to the empty string (rather than sending an empty
string), sending the trimmed email otherwise. -/
theorem request_body_shape (s : BookingState) (sid : Nat)
    (hname : jsTrim s.name ≠ "") :
    ∃ req, (handleSubmitStart (some sid) s).2 = some req ∧
      req.slotId = sid ∧
      req.body.lookup "patient_name" = some (jsTrim s.name) ∧
      (jsTrim s.email = "" →
        req.body = [("patient_name", jsTrim s.name)] ∧
        req.body.lookup "patient_email" = none) ∧
      (jsTrim s.email ≠ "" →
        req.body.lookup "patient_email" = some (jsTrim s.email)) := by
  refine ⟨{ slotId := sid,
            body := bookAppointmentBody (jsTrim s.name)
                      (if jsTrim s.email = "" then none else some (jsTrim s.email)) },
          ?_, rfl, ?_, ?_, ?_⟩
  · simp [handleSubmitStart, hname]
  · by_cases he : jsTrim s.email = "" <;>
      simp [bookAppointmentBody, jsonFields, he, List.lookup]
  · intro he
    simp [bookAppointmentBody, jsonFields, he, List.lookup]
  · intro he
    simp [bookAppointmentBody, jsonFields, he, List.lookup]

/-- Witness for C10: a padded name and a whitespace-only email produce a
request whose body holds only the trimmed name. -/
theorem request_body_shape_witness :
    ∃ req, (handleSubmitStart (some 10)
        { bookingInit with name := " Jane Doe ", email := "  " }).2 = some req ∧
      req.body = [("patient_name", "Jane Doe")] ∧
      req.body.lookup "patient_email" = none := by
  obtain ⟨req, hsome, _, _, hemail, _⟩ :=
    request_body_shape { bookingInit with name := " Jane Doe ", email := "  " } 10
      (by decide)
  obtain ⟨hbody, hlook⟩ := hemail (by decide)
  exact ⟨req, hsome, by rw [hbody]; rfl, hlook⟩

/-- The number of `BEGIN:VEVENT` lines in a payload given as its list of
lines — the number of events the calendar file opens. -/
def beginVEventCount (lines : List String) : Nat :=
  lines.countP (fun l => l == "BEGIN:VEVENT")

/-- A string with a given literal prefix differs from any target string
that does not start with that prefix. -/
theorem append_ne_of_take_ne (a x t : String)
    (h : t.data.take a.data.length ≠ a.data) : a ++ x ≠ t := by
  intro he
  apply h
  rw [← he]
  rw [String.data_append]
  exact List.take_left a.data x.data

/-- Among the lines of `icsLines`, exactly one opens an event. -/
theorem icsLines_one_event (b : Booking) (slot : Option AppointmentSlot)
    (d : Option Doctor) (now : Nat) :
    beginVEventCount (icsLines b slot d now) = 1 := by
  have h1 : ("UID:" ++ (toString b.id ++ "@medreserve.com")) ≠ "BEGIN:VEVENT" :=
    append_ne_of_take_ne _ _ _ (by decide)
  have h2 : ∀ v : String, ("DTSTAMP:" ++ v) ≠ "BEGIN:VEVENT" := fun v =>
    append_ne_of_take_ne _ _ _ (by decide)
  have h3 : ∀ v : String, ("DTSTART:" ++ v) ≠ "BEGIN:VEVENT" := fun v =>
    append_ne_of_take_ne _ _ _ (by decide)
  have h4 : ∀ v : String, ("DTEND:" ++ v) ≠ "BEGIN:VEVENT" := fun v =>
    append_ne_of_take_ne _ _ _ (by decide)
  have h5 : ∀ v : String, ("SUMMARY:Appointment with " ++ v) ≠ "BEGIN:VEVENT" := fun v =>
    append_ne_of_take_ne _ _ _ (by decide)
  have h6 : ∀ v : String, ("DESCRIPTION:Booking ID: " ++ v) ≠ "BEGIN:VEVENT" := fun v =>
    append_ne_of_take_ne _ _ _ (by decide)
  have h7 : ∀ v : String, ("Patient: " ++ v) ≠ "BEGIN:VEVENT" := fun v =>
    append_ne_of_take_ne _ _ _ (by decide)
  simp [beginVEventCount, icsLines, List.countP_cons, h1, h2, h3, h4, h5, h6, h7]

/-- Claim C6: for a booking with an associated slot the calendar payload
contains exactly one event; its `DTSTART` is the formatted slot start
time, its `DTEND` the formatted start plus `duration_minutes` minutes
(60000 ms each); the summary line carries the doctor name (the generic
placeholder `Doctor` when the doctor is absent); and the description
embeds the booking id and the patient name.  The payload string is the
newline-join of exactly these lines. -/
theorem ics_payload_event_fields (b : Booking) (s : AppointmentSlot)
    (d : Option Doctor) (now : Nat) :
    beginVEventCount (icsLines b (some s) d now) = 1 ∧
    ("DTSTART:" ++ formatDateICS s.start_time) ∈ icsLines b (some s) d now ∧
    ("DTEND:" ++ formatDateICS (s.start_time + s.duration_minutes * 60000)) ∈
      icsLines b (some s) d now ∧
    ("SUMMARY:Appointment with " ++ icsSummaryName d) ∈ icsLines b (some s) d now ∧
    (d = none → icsSummaryName d = "Doctor") ∧
    (∀ doc, d = some doc → doc.name ≠ "" → icsSummaryName d = doc.name) ∧
    ("DESCRIPTION:Booking ID: " ++ toString b.id) ∈ icsLines b (some s) d now ∧
    ("Patient: " ++ b.patient_name) ∈ icsLines b (some s) d now ∧
    generateICS b (some s) d now = String.intercalate "\n" (icsLines b (some s) d now) := by
  refine ⟨icsLines_one_event b (some s) d now, ?_, ?_, ?_, ?_, ?_, ?_, ?_, rfl⟩
  · simp [icsLines]
  · simp [icsLines]
  · simp [icsLines]
  · intro hd
    subst hd
    rfl
  · intro doc hd hname
    subst hd
    simp [icsSummaryName, hname]
  · simp [icsLines]
  · simp [icsLines]

/-- Witness for C6 at the scenario of the spec: slot 10 of doctor 1
starting 2024-06-01T09:00:00Z (epoch ms 1717232400000) with a 30-minute
duration, booking 99 for Jane Doe — the event ends 09:30:00Z. -/
theorem ics_payload_event_fields_witness :
    ("DTSTART:20240601T090000Z") ∈
      icsLines ⟨99, 10, "Jane Doe", none, BookingStatus.CONFIRMED⟩
        (some ⟨10, 1, 1717232400000, 30⟩) (some ⟨1, "A. Smith", none⟩) 0 ∧
    ("DTEND:20240601T093000Z") ∈
      icsLines ⟨99, 10, "Jane Doe", none, BookingStatus.CONFIRMED⟩
        (some ⟨10, 1, 1717232400000, 30⟩) (some ⟨1, "A. Smith", none⟩) 0 ∧
    ("SUMMARY:Appointment with A. Smith") ∈
      icsLines ⟨99, 10, "Jane Doe", none, BookingStatus.CONFIRMED⟩
        (some ⟨10, 1, 1717232400000, 30⟩) (some ⟨1, "A. Smith", none⟩) 0 ∧
    beginVEventCount
      (icsLines ⟨99, 10, "Jane Doe", none, BookingStatus.CONFIRMED⟩
        (some ⟨10, 1, 1717232400000, 30⟩) (some ⟨1, "A. Smith", none⟩) 0) = 1 := by
  have h := ics_payload_event_fields ⟨99, 10, "Jane Doe", none, BookingStatus.CONFIRMED⟩
    ⟨10, 1, 1717232400000, 30⟩ (some ⟨1, "A. Smith", none⟩) 0
  exact ⟨h.2.1, h.2.2.1, h.2.2.2.1, h.1⟩

/-- Claim C7 (as stated) is violated: `generateICS` reads the current
clock for its `DTSTAMP` field, so two invocations with identical
Booking, Slot and Doctor arguments but clock values one second apart
produce different payloads. -/
theorem generateICS_not_clock_independent :
    generateICS ⟨99, 10, "Jane Doe", none, BookingStatus.CONFIRMED⟩
      (some ⟨10, 1, 1717232400000, 30⟩) none 0 ≠
    generateICS ⟨99, 10, "Jane Doe", none, BookingStatus.CONFIRMED⟩
      (some ⟨10, 1, 1717232400000, 30⟩) none 1000 := by
  decide

/-- Claim C7 (amended): `generateICS` is side-effect free and
deterministic in its arguments and the clock instant — two invocations
with the same Booking, Slot and Doctor arguments whose clock readings
fall in the same second produce byte-identical payloads (the payload
depends on the clock only through the second-resolution `DTSTAMP`
field). -/
theorem generateICS_deterministic_given_clock (b : Booking)
    (slot : Option AppointmentSlot) (d : Option Doctor) (n1 n2 : Nat)
    (h : n1 / 1000 = n2 / 1000) :
    generateICS b slot d n1 = generateICS b slot d n2 := by
  have hf : ∀ a c : Nat, a / 1000 = c / 1000 → formatDateICS a = formatDateICS c := by
    intro a c hac
    unfold formatDateICS
    rw [hac]
  cases slot with
  | some s => simp [generateICS, icsLines, hf n1 n2 h]
  | none =>
    have h30 : (n1 + 30 * 60000) / 1000 = (n2 + 30 * 60000) / 1000 := by omega
    simp [generateICS, icsLines, hf n1 n2 h, hf _ _ h30]

/-- Witness for the amended C7: two clock readings 999 ms apart within
the same second give identical payloads. -/
theorem generateICS_deterministic_given_clock_witness :
    generateICS ⟨99, 10, "Jane Doe", none, BookingStatus.CONFIRMED⟩
      (some ⟨10, 1, 1717232400000, 30⟩) none 0 =
    generateICS ⟨99, 10, "Jane Doe", none, BookingStatus.CONFIRMED⟩
      (some ⟨10, 1, 1717232400000, 30⟩) none 999 :=
  generateICS_deterministic_given_clock _ _ _ 0 999 (by decide)

/-- The inductive invariant of the notification system: every armed
timer belongs to a mounted toast, every timer id was allocated (below
`nextId`), and timer ids are pairwise distinct (one `setTimeout` handle
per mounted toast). -/
def toastInv (s : ToastSys) : Prop :=
  (∀ p ∈ s.timers, ∃ t ∈ s.toasts, t.id = p.1) ∧
  (∀ p ∈ s.timers, p.1 < s.nextId) ∧
  (s.timers.map Prod.fst).Nodup

/-- Removing one id from both lists preserves the invariant. -/
theorem toastInv_filter_id (s : ToastSys) (i : Nat) (h : toastInv s) :
    toastInv { s with toasts := s.toasts.filter (fun t => t.id ≠ i),
                      timers := s.timers.filter (fun p => p.1 ≠ i) } := by
  obtain ⟨hd, hb, hn⟩ := h
  refine ⟨?_, ?_, ?_⟩
  · intro p hp
    simp only [List.mem_filter, decide_eq_true_eq] at hp
    obtain ⟨hpmem, hpne⟩ := hp
    obtain ⟨t, htmem, htid⟩ := hd p hpmem
    refine ⟨t, ?_, htid⟩
    simp only [List.mem_filter, decide_eq_true_eq]
    exact ⟨htmem, htid ▸ hpne⟩
  · intro p hp
    simp only [List.mem_filter, decide_eq_true_eq] at hp
    exact hb p hp.1
  · exact List.Nodup.sublist (List.Sublist.map Prod.fst (List.filter_sublist _)) hn

/-- Every event of the notification system preserves the invariant. -/
theorem toastStep_inv (s : ToastSys) (e : ToastEvent) (h : toastInv s) :
    toastInv (toastStep s e) := by
  obtain ⟨hd, hb, hn⟩ := h
  cases e with
  | showToast m ty dur =>
    refine ⟨?_, ?_, ?_⟩
    · intro p hp
      simp only [toastStep, List.mem_append, List.mem_singleton] at hp
      cases hp with
      | inl hin =>
        obtain ⟨t, htmem, htid⟩ := hd p hin
        exact ⟨t, by simp [toastStep, List.mem_append, htmem], htid⟩
      | inr heq =>
        refine ⟨⟨s.nextId, m, ty⟩, ?_, by rw [heq]⟩
        simp [toastStep, List.mem_append]
    · intro p hp
      simp only [toastStep, List.mem_append, List.mem_singleton] at hp
      cases hp with
      | inl hin => exact Nat.lt_succ_of_lt (hb p hin)
      | inr heq => simp [toastStep, heq]
    · simp only [toastStep, List.map_append, List.map_cons, List.map_nil]
      rw [List.nodup_append]
      refine ⟨hn, List.nodup_singleton _, ?_⟩
      intro a ha hb2
      simp only [List.mem_singleton] at hb2
      obtain ⟨p, hpmem, hpfst⟩ := List.mem_map.mp ha
      have := hb p hpmem
      omega
  | dismiss i => exact toastInv_filter_id s i ⟨hd, hb, hn⟩
  | fire i =>
    simp only [toastStep]
    cases hfind : s.timers.find? (fun p => p.1 = i) with
    | none => exact ⟨hd, hb, hn⟩
    | some pr =>
      by_cases hdl : pr.2 ≤ s.now
      · simp only [hdl, if_true]
        exact toastInv_filter_id s i ⟨hd, hb, hn⟩
      · simp only [hdl, if_false]
        exact ⟨hd, hb, hn⟩
  | tick dt => exact ⟨hd, hb, hn⟩

/-- The invariant holds of the empty system. -/
theorem toastInit_inv : toastInv toastInit := by
  refine ⟨?_, ?_, ?_⟩ <;> simp [toastInv, toastInit]

/-- The invariant holds after any event trace from the empty system. -/
theorem toastRun_inv (es : List ToastEvent) : toastInv (toastRun es) := by
  have hgen : ∀ (l : List ToastEvent) (s : ToastSys), toastInv s →
      toastInv (l.foldl toastStep s) := by
    intro l
    induction l with
    | nil => intro s h; exact h
    | cons e tl ih => intro s h; exact ih _ (toastStep_inv s e h)
  exact hgen es toastInit toastInit_inv

/-- With pairwise-distinct timer ids, `find?` on an armed timer id
returns exactly that timer. -/
theorem find_timer_eq (l : List (Nat × Nat)) (i dl : Nat)
    (hn : (l.map Prod.fst).Nodup) (hm : (i, dl) ∈ l) :
    l.find? (fun p => p.1 = i) = some (i, dl) := by
  induction l with
  | nil => cases hm
  | cons a tl ih =>
    simp only [List.map_cons, List.nodup_cons] at hn
    obtain ⟨hna, hntl⟩ := hn
    rcases List.mem_cons.mp hm with heq | htl
    · rw [← heq]
      exact List.find?_cons_of_pos _ (by simp)
    · have hai : ¬ (a.1 = i) := by
        intro hai
        apply hna
        rw [hai]
        exact List.mem_map.mpr ⟨(i, dl), htl, rfl⟩
      rw [List.find?_cons_of_neg _ (by simpa using hai)]
      exact ih hntl htl

/-- Claim C9: after any event trace, no armed timer belongs to a removed
message (`noDanglingTimer`); a manual dismissal of message `i` cancels
exactly its timer and leaves every other mounted message in place; when
the armed timer of message `i` fires after its deadline has elapsed, the
message self-dismisses (no mounted toast with id `i` survives); and a
message shown without an explicit duration arms its timer for the
default 3000 time units after the current instant. -/
theorem toast_timer_lifecycle (es : List ToastEvent) (i : Nat) (m : String)
    (ty : ToastType) :
    noDanglingTimer (toastRun es) ∧
    (∀ p ∈ (toastStep (toastRun es) (ToastEvent.dismiss i)).timers, p.1 ≠ i) ∧
    (∀ t ∈ (toastRun es).toasts, t.id ≠ i →
      t ∈ (toastStep (toastRun es) (ToastEvent.dismiss i)).toasts) ∧
    (∀ dl, (i, dl) ∈ (toastRun es).timers → dl ≤ (toastRun es).now →
      ∀ t ∈ (toastStep (toastRun es) (ToastEvent.fire i)).toasts, t.id ≠ i) ∧
    ((toastRun es).nextId, (toastRun es).now + 3000) ∈
      (toastStep (toastRun es) (ToastEvent.showToast m ty none)).timers := by
  obtain ⟨hd, hb, hn⟩ := toastRun_inv es
  refine ⟨hd, ?_, ?_, ?_, ?_⟩
  · intro p hp
    simp only [toastStep, List.mem_filter, decide_eq_true_eq] at hp
    exact hp.2
  · intro t ht hne
    simp only [toastStep, List.mem_filter, decide_eq_true_eq]
    exact ⟨ht, hne⟩
  · intro dl hmem hdl t ht
    have hfind := find_timer_eq (toastRun es).timers i dl hn hmem
    have hstep : toastStep (toastRun es) (ToastEvent.fire i) =
        { toastRun es with
            toasts := (toastRun es).toasts.filter (fun t => t.id ≠ i),
            timers := (toastRun es).timers.filter (fun p => p.1 ≠ i) } := by
      simp only [toastStep, hfind, hdl, if_true]
    rw [hstep] at ht
    simp only [List.mem_filter, decide_eq_true_eq] at ht
    exact ht.2
  · simp [toastStep, List.mem_append]

/-- Witness for C9: after showing one toast, the default timer for a
second toast is armed at 3000; after the first timer of a
3000-unit-old toast fires, that toast is no longer mounted. -/
theorem toast_timer_lifecycle_witness :
    ((1 : Nat), (3000 : Nat)) ∈
      (toastStep
        (toastRun [ToastEvent.showToast "Appointment booked successfully!"
          ToastType.success none])
        (ToastEvent.showToast "Second message" ToastType.error none)).timers ∧
    (⟨0, "Appointment booked successfully!", ToastType.success⟩ : ToastItem) ∉
      (toastStep
        (toastRun [ToastEvent.showToast "Appointment booked successfully!"
            ToastType.success none,
          ToastEvent.tick 3000])
        (ToastEvent.fire 0)).toasts := by
  constructor
  · exact (toast_timer_lifecycle
      [ToastEvent.showToast "Appointment booked successfully!" ToastType.success none]
      0 "Second message" ToastType.error).2.2.2.2
  · intro hmem
    have h := (toast_timer_lifecycle
      [ToastEvent.showToast "Appointment booked successfully!" ToastType.success none,
        ToastEvent.tick 3000]
      0 "Second message" ToastType.error).2.2.2.1 3000 (by decide) (by decide)
    exact h _ hmem rfl

end MedReserve
